import Mathlib

/-!
Verification of the sentinel-agent monitoring agent (Rust sources under
src/).  Each Rust function relevant to the specified behaviour is embedded
as an executable Lean definition; machine integers (u64/usize) are
modelled as Nat, the f64 usage ratio as an exact rational, and the
filesystem / network collaborators as explicit oracles passed to the
embedded functions.
-/

set_option autoImplicit false

/-- Embeds `DiskMetric` (src/metrics.rs).  `usage_percentage : f64` is
modelled as an exact rational number. -/
structure DiskMetric where
  timestamp : Nat
  device : String
  mount_point : String
  total_space_bytes : Nat
  used_space_bytes : Nat
  available_space_bytes : Nat
  usage_percentage : ℚ
deriving Repr, DecidableEq

/-- Embeds `MetricBatch` (src/metrics.rs). -/
structure MetricBatch where
  server_id : String
  hostname : String
  timestamp : Nat
  metrics : List DiskMetric
deriving Repr, DecidableEq

/-- Embeds `DiskConfig` (src/config.rs). -/
structure DiskConfig where
  enabled : Bool
  include_mount_points : Option (List String)
  exclude_mount_points : Option (List String)
deriving Repr, DecidableEq

/-- Embeds `AgentConfig` (src/config.rs). -/
structure AgentConfig where
  id : String
  hostname : Option String
deriving Repr, DecidableEq

/-- Embeds `ApiConfig` (src/config.rs). -/
structure ApiConfig where
  endpoint : String
  timeout_seconds : Option Nat
  api_key : Option String
deriving Repr, DecidableEq

/-- Embeds `CollectionConfig` (src/config.rs). -/
structure CollectionConfig where
  interval_seconds : Nat
  batch_size : Option Nat
  flush_interval_seconds : Option Nat
  disk : DiskConfig
deriving Repr, DecidableEq

/-- Embeds `Config` (src/config.rs). -/
structure Config where
  agent : AgentConfig
  api : ApiConfig
  collection : CollectionConfig
deriving Repr, DecidableEq

/-- Embeds `Config::get_batch_size` (src/config.rs): `batch_size.unwrap_or(100)`. -/
def Config.get_batch_size (c : Config) : Nat :=
  c.collection.batch_size.getD 100

/-- The in-memory state of `SentinelAgent` (src/agent.rs) that the buffer
and flush operations read and write.  The HTTP client and the metric
collector are external collaborators and appear as oracles where needed.
`buffer : VecDeque<DiskMetric>` is a list whose head is the queue front. -/
structure SentinelAgent where
  config : Config
  hostname : String
  buffer : List DiskMetric
  resource_id : Option String
deriving Repr, DecidableEq

/-- Embeds the eviction loop of `SentinelAgent::add_to_buffer`
(src/agent.rs): `while self.buffer.len() > max_size { self.buffer.pop_front(); }`. -/
def evict_front (max_size : Nat) : List DiskMetric → List DiskMetric
  | [] => []
  | x :: rest =>
    if (x :: rest).length > max_size then evict_front max_size rest
    else x :: rest

/-- Embeds `SentinelAgent::add_to_buffer` (src/agent.rs): extend the
buffer with the pushed metrics, then pop from the front while the length
exceeds `config.get_batch_size()`. -/
def SentinelAgent.add_to_buffer (st : SentinelAgent) (metrics : List DiskMetric) : SentinelAgent :=
  { st with buffer := evict_front st.config.get_batch_size (st.buffer ++ metrics) }

theorem evict_front_eq_drop (m : Nat) (l : List DiskMetric) :
    evict_front m l = l.drop (l.length - m) := by
  induction l with
  | nil => simp [evict_front]
  | cons x rest ih =>
    by_cases h : (x :: rest).length > m
    · have hm : m ≤ rest.length := by
        simpa [Nat.lt_succ_iff] using h
      have hsub : (x :: rest).length - m = (rest.length - m) + 1 := by
        simp only [List.length_cons]
        omega
      rw [evict_front, if_pos h, ih, hsub, List.drop_succ_cons]
    · have hle : (x :: rest).length ≤ m := Nat.le_of_not_lt h
      have hsub : (x :: rest).length - m = 0 := Nat.sub_eq_zero_of_le hle
      rw [evict_front, if_neg h, hsub, List.drop_zero]

/-- C1: `add_to_buffer` appends the pushed samples in order and then
evicts from the front until the length is at most the configured
capacity: the resulting buffer is exactly the final segment of
`buffer ++ pushed` of length at most the capacity, and when
`len(buffer) + len(pushed) > capacity` it holds exactly the last
`capacity` items of the concatenation, oldest evicted first. -/
theorem agent_add_to_buffer_evicts_oldest (st : SentinelAgent) (pushed : List DiskMetric) :
    (st.add_to_buffer pushed).buffer
        = (st.buffer ++ pushed).drop ((st.buffer ++ pushed).length - st.config.get_batch_size)
    ∧ (st.add_to_buffer pushed).buffer.length ≤ st.config.get_batch_size
    ∧ (st.buffer.length + pushed.length > st.config.get_batch_size →
        (st.add_to_buffer pushed).buffer.length = st.config.get_batch_size) := by
  have hdrop := evict_front_eq_drop st.config.get_batch_size (st.buffer ++ pushed)
  refine ⟨?_, ?_, ?_⟩
  · simpa [SentinelAgent.add_to_buffer] using hdrop
  · simp only [SentinelAgent.add_to_buffer, hdrop, List.length_drop]
    omega
  · intro hgt
    simp only [SentinelAgent.add_to_buffer, hdrop, List.length_drop, List.length_append]
    omega

/-- A sample disk metric used to instantiate theorems on concrete inputs
(values taken from the repository's own tests). -/
def sampleMetric (i : Nat) : DiskMetric :=
  { timestamp := i, device := "/dev/sda1", mount_point := "/",
    total_space_bytes := 1000000, used_space_bytes := 500000,
    available_space_bytes := 500000, usage_percentage := (1 : ℚ) / 2 }

/-- A concrete configuration mirroring the test config of src/agent.rs
(batch_size 5, no api_key). -/
def sampleConfig : Config :=
  { agent := { id := "test-agent", hostname := none },
    api := { endpoint := "https://api.example.com", timeout_seconds := none, api_key := none },
    collection := { interval_seconds := 60, batch_size := some 5,
                    flush_interval_seconds := none,
                    disk := { enabled := true, include_mount_points := none,
                              exclude_mount_points := none } } }

/-- A concrete agent state: capacity 5, three buffered samples. -/
def sampleAgent : SentinelAgent :=
  { config := sampleConfig,
    hostname := "test-host",
    buffer := [sampleMetric 1, sampleMetric 2, sampleMetric 3],
    resource_id := none }

/-- Witness for C1 at a concrete input: capacity 5, buffer holding 3
items, 4 items pushed; the buffer retains the last 5 of the 7. -/
theorem agent_add_to_buffer_evicts_oldest_witness :
    sampleAgent.buffer.length + [sampleMetric 4, sampleMetric 5, sampleMetric 6, sampleMetric 7].length
        > sampleAgent.config.get_batch_size
    ∧ (sampleAgent.add_to_buffer [sampleMetric 4, sampleMetric 5, sampleMetric 6, sampleMetric 7]).buffer.length
        = sampleAgent.config.get_batch_size :=
  ⟨by decide,
   (agent_add_to_buffer_evicts_oldest sampleAgent
      [sampleMetric 4, sampleMetric 5, sampleMetric 6, sampleMetric 7]).2.2 (by decide)⟩

/-- Embeds `ApiError` (src/client.rs). -/
inductive ApiError where
  | ClientCreation (msg : String)
  | Request (msg : String)
  | Response (status : Nat) (body : String)
  | Parse (msg : String)
deriving Repr, DecidableEq

/-- Embeds `AgentError` (src/agent.rs). -/
inductive AgentError where
  | Initialization (msg : String)
  | Configuration (msg : String)
  | Api (e : ApiError)
  | MetricCollection (msg : String)
deriving Repr, DecidableEq

/-- Embeds `MetricService::create_batch` (src/metrics.rs): wraps the
metrics with the server id, hostname and the current Unix timestamp. -/
def create_batch (metrics : List DiskMetric) (server_id hostname : String) (now : Nat) :
    MetricBatch :=
  { server_id := server_id, hostname := hostname, timestamp := now, metrics := metrics }

/-- Result of one `flush_buffer` call: the returned value, the buffer
left in the agent, and the batch handed to `api_client.send_metrics`
(none when no network call was made). -/
structure FlushOutcome where
  result : Except AgentError Unit
  buffer : List DiskMetric
  sent : Option MetricBatch
deriving Repr

/-- Embeds `SentinelAgent::flush_buffer` (src/agent.rs).  `now` is the
wall-clock second at which the batch is stamped and `send` is the
`api_client.send_metrics` collaborator.  The Rust control flow is kept:
empty-buffer early return; then the resource-id resolution (falling back
to the fixed test id exactly when no api_key is configured, and failing
with a Configuration error when an api_key is configured); only after
that is the buffer drained and the batch built and sent. -/
def SentinelAgent.flush_buffer (st : SentinelAgent) (now : Nat)
    (send : MetricBatch → Except ApiError Unit) : FlushOutcome :=
  if st.buffer.isEmpty then
    { result := .ok (), buffer := st.buffer, sent := none }
  else
    match st.resource_id with
    | some id =>
        let batch := create_batch st.buffer id st.hostname now
        match send batch with
        | .ok _ => { result := .ok (), buffer := [], sent := some batch }
        | .error e => { result := .error (.Api e), buffer := [], sent := some batch }
    | none =>
        if st.config.api.api_key.isNone then
          let batch := create_batch st.buffer "test-resource-id" st.hostname now
          match send batch with
          | .ok _ => { result := .ok (), buffer := [], sent := some batch }
          | .error e => { result := .error (.Api e), buffer := [], sent := some batch }
        else
          { result := .error (.Configuration "Resource not registered"),
            buffer := st.buffer, sent := none }

/-- A concrete configuration with an api_key configured. -/
def sampleConfigWithKey : Config :=
  { sampleConfig with api := { sampleConfig.api with api_key := some "test-api-key" } }

/-- A concrete agent with credentials configured, one buffered sample and
no resolved resource id. -/
def sampleAgentWithKey : SentinelAgent :=
  { config := sampleConfigWithKey,
    hostname := "test-host",
    buffer := [sampleMetric 1],
    resource_id := none }

/-- Counterexample for C2: with a non-empty buffer, no resolved resource
id and an api_key configured, `flush_buffer` does return a Configuration
error — but the buffer is NOT drained before the id check: the call
leaves the buffer exactly as it was (the sample is retained, not
discarded), contradicting the claim that the contents were already
drained when the id check fails. -/
theorem agent_flush_missing_id_counterexample :
    (sampleAgentWithKey.flush_buffer 1000 (fun _ => .ok ())).result
        = .error (.Configuration "Resource not registered")
    ∧ (sampleAgentWithKey.flush_buffer 1000 (fun _ => .ok ())).buffer
        = sampleAgentWithKey.buffer
    ∧ sampleAgentWithKey.buffer ≠ [] :=
  ⟨rfl, rfl, by decide⟩

/-- C2 amended: when `flush_buffer` runs on a non-empty buffer with no
resolved resource id and an api_key configured, it fails with a
Configuration-class error, and the resource-id check happens BEFORE the
drain: the buffer is left untouched (no samples are discarded) and no
network call is made. -/
theorem agent_flush_missing_id_fails_before_drain (st : SentinelAgent) (now : Nat)
    (send : MetricBatch → Except ApiError Unit) (k : String)
    (hne : st.buffer ≠ []) (hid : st.resource_id = none)
    (hkey : st.config.api.api_key = some k) :
    st.flush_buffer now send
      = { result := .error (.Configuration "Resource not registered"),
          buffer := st.buffer, sent := none } := by
  rcases hb : st.buffer with _ | ⟨m, rest⟩
  · exact absurd hb hne
  · simp [SentinelAgent.flush_buffer, hb, hid, hkey]

/-- Witness for the amended C2 at a concrete input. -/
theorem agent_flush_missing_id_fails_before_drain_witness :
    sampleAgentWithKey.flush_buffer 1000 (fun _ => .ok ())
      = { result := .error (.Configuration "Resource not registered"),
          buffer := sampleAgentWithKey.buffer, sent := none } :=
  agent_flush_missing_id_fails_before_drain sampleAgentWithKey 1000 (fun _ => .ok ())
    "test-api-key" (by decide) rfl rfl

/-- C8: flushing with no resolved resource id and no api_key substitutes
the fixed sentinel id "test-resource-id", builds the batch from the
drained samples with that id, and succeeds whenever the transmission
collaborator accepts the batch; and flushing an empty buffer is a no-op:
nothing is sent and no error is returned. -/
theorem agent_flush_sentinel_id_and_empty_noop (st : SentinelAgent) (now : Nat)
    (send : MetricBatch → Except ApiError Unit) :
    (st.buffer = [] →
      st.flush_buffer now send = { result := .ok (), buffer := st.buffer, sent := none })
    ∧ (st.buffer ≠ [] → st.resource_id = none → st.config.api.api_key = none →
        send (create_batch st.buffer "test-resource-id" st.hostname now) = .ok () →
        st.flush_buffer now send
          = { result := .ok (), buffer := [],
              sent := some (create_batch st.buffer "test-resource-id" st.hostname now) }) := by
  constructor
  · intro hb
    simp [SentinelAgent.flush_buffer, hb]
  · intro hne hid hkey hsend
    rcases hb : st.buffer with _ | ⟨m, rest⟩
    · exact absurd hb hne
    · rw [hb] at hsend
      simp [SentinelAgent.flush_buffer, hb, hid, hkey, hsend]

/-- A concrete agent with an empty buffer, no api_key, no resource id. -/
def sampleAgentEmpty : SentinelAgent :=
  { config := sampleConfig, hostname := "test-host", buffer := [], resource_id := none }

/-- A concrete agent with one buffered sample, no api_key, no resource id. -/
def sampleAgentNoKey : SentinelAgent :=
  { config := sampleConfig, hostname := "test-host", buffer := [sampleMetric 1],
    resource_id := none }

/-- Witness for C8 at concrete inputs: the empty-buffer no-op and the
sentinel-id flush against an accepting transmission collaborator. -/
theorem agent_flush_sentinel_id_and_empty_noop_witness :
    sampleAgentEmpty.flush_buffer 1000 (fun _ => .ok ())
      = { result := .ok (), buffer := sampleAgentEmpty.buffer, sent := none }
    ∧ sampleAgentNoKey.flush_buffer 1000 (fun _ => .ok ())
      = { result := .ok (), buffer := [],
          sent := some (create_batch sampleAgentNoKey.buffer "test-resource-id"
                          sampleAgentNoKey.hostname 1000) } :=
  ⟨(agent_flush_sentinel_id_and_empty_noop sampleAgentEmpty 1000 (fun _ => .ok ())).1 rfl,
   (agent_flush_sentinel_id_and_empty_noop sampleAgentNoKey 1000 (fun _ => .ok ())).2
      (by decide) rfl rfl rfl⟩

/-- Embeds Rust `str::contains` (substring containment) as used in
`DiskCollector::should_include_mount_point` (src/metrics.rs):
`s.contains(pat)` holds when `pat` occurs contiguously inside `s`. -/
def str_contains (s pat : String) : Bool :=
  decide (pat.toList <:+: s.toList)

/-- The exclude-list half of `DiskCollector::should_include_mount_point`
(src/metrics.rs): reject when any exclude entry occurs in the mount
point. -/
def exclude_allows (config : DiskConfig) (mount_point : String) : Bool :=
  match config.exclude_mount_points with
  | some exclude_list => ! exclude_list.any (fun pat => str_contains mount_point pat)
  | none => true

/-- Embeds `DiskCollector::should_include_mount_point` (src/metrics.rs):
check the include list first (if present, at least one entry must occur
in the mount point), then the exclude list (if present, no entry may
occur in the mount point). -/
def should_include_mount_point (config : DiskConfig) (mount_point : String) : Bool :=
  match config.include_mount_points with
  | some include_list =>
      if ! include_list.any (fun pat => str_contains mount_point pat) then false
      else exclude_allows config mount_point
  | none => exclude_allows config mount_point

/-- C9: `should_include_mount_point` returns true exactly when (the
include list is absent, or some include entry is a substring of the
mount point) and (the exclude list is absent, or no exclude entry is a
substring of the mount point); matching is substring containment, so an
exclude entry "/dev" also filters "/dev/shm". -/
theorem should_include_mount_point_iff (config : DiskConfig) (mp : String) :
    should_include_mount_point config mp = true ↔
      ((∀ l, config.include_mount_points = some l →
          ∃ pat ∈ l, pat.toList <:+: mp.toList)
       ∧ (∀ l, config.exclude_mount_points = some l →
          ∀ pat ∈ l, ¬ (pat.toList <:+: mp.toList))) := by
  rcases hinc : config.include_mount_points with _ | linc <;>
    rcases hexc : config.exclude_mount_points with _ | lexc <;>
      simp [should_include_mount_point, exclude_allows, hinc, hexc, str_contains,
        List.any_eq_true]

/-- Embeds `DiskCollector::create_disk_metric` (src/metrics.rs),
parametrised by the values read from the `sysinfo::Disk` collaborator.
The u64 subtraction `total_space - available_space` is Nat subtraction;
the f64 division is exact rational division, guarded by `total_space > 0`. -/
def create_disk_metric (device mount_point : String)
    (total_space available_space : Nat) (timestamp : Nat) : DiskMetric :=
  let used_space := total_space - available_space
  let usage_percentage : ℚ :=
    if total_space > 0 then (used_space : ℚ) / (total_space : ℚ) else 0
  { timestamp := timestamp, device := device, mount_point := mount_point,
    total_space_bytes := total_space, used_space_bytes := used_space,
    available_space_bytes := available_space, usage_percentage := usage_percentage }

/-- C10: under the precondition `available_space ≤ total_space`,
`create_disk_metric` sets `used_space_bytes = total_space -
available_space` with `used + available = total` exactly (no underflow),
computes the usage ratio as used/total only when `total_space > 0` and
sets it to 0 when `total_space = 0`, and the resulting ratio lies in
[0, 1]. -/
theorem create_disk_metric_spec (device mount_point : String)
    (total_space available_space timestamp : Nat)
    (h : available_space ≤ total_space) :
    (create_disk_metric device mount_point total_space available_space timestamp).used_space_bytes
        = total_space - available_space
    ∧ (create_disk_metric device mount_point total_space available_space timestamp).used_space_bytes
        + (create_disk_metric device mount_point total_space available_space timestamp).available_space_bytes
        = total_space
    ∧ (total_space = 0 →
        (create_disk_metric device mount_point total_space available_space timestamp).usage_percentage = 0)
    ∧ (0 < total_space →
        (create_disk_metric device mount_point total_space available_space timestamp).usage_percentage
          = ((total_space - available_space : Nat) : ℚ) / (total_space : ℚ))
    ∧ 0 ≤ (create_disk_metric device mount_point total_space available_space timestamp).usage_percentage
    ∧ (create_disk_metric device mount_point total_space available_space timestamp).usage_percentage ≤ 1 := by
  refine ⟨rfl, by simp [create_disk_metric]; omega, ?_, ?_, ?_, ?_⟩
  · intro h0
    simp [create_disk_metric, h0]
  · intro h0
    simp [create_disk_metric, h0]
  · rcases Nat.eq_zero_or_pos total_space with h0 | h0
    · simp [create_disk_metric, h0]
    · have : (0 : ℚ) < (total_space : ℚ) := by exact_mod_cast h0
      simp only [create_disk_metric, if_pos h0]
      positivity
  · rcases Nat.eq_zero_or_pos total_space with h0 | h0
    · simp [create_disk_metric, h0]
    · have hpos : (0 : ℚ) < (total_space : ℚ) := by exact_mod_cast h0
      have hle : ((total_space - available_space : Nat) : ℚ) ≤ (total_space : ℚ) := by
        exact_mod_cast Nat.sub_le total_space available_space
      simp only [create_disk_metric, if_pos h0]
      exact div_le_one_of_le₀ hle hpos.le

/-- Witness for C10 at a concrete input: a 1 MB disk with 500 kB
available yields used = 500000, used + available = total, and the exact
ratio 1/2. -/
theorem create_disk_metric_spec_witness :
    500000 ≤ 1000000
    ∧ (create_disk_metric "/dev/sda1" "/" 1000000 500000 1234567890).used_space_bytes = 500000
    ∧ (create_disk_metric "/dev/sda1" "/" 1000000 500000 1234567890).usage_percentage = 1 / 2 := by
  have h := create_disk_metric_spec "/dev/sda1" "/" 1000000 500000 1234567890 (by decide)
  refine ⟨by decide, by rw [h.1], ?_⟩
  rw [h.2.2.2.1 (by decide)]
  norm_num

/-- Embeds `SessionInfo` (src/metadata.rs); the three u64 fields are Nat. -/
structure SessionInfo where
  boot_time : Nat
  agent_start_time : Nat
  uptime_seconds : Nat
deriving Repr, DecidableEq

/-- Embeds `SessionInfo::is_consistent_with` (src/metadata.rs).  The u64
values are compared through i64, modelled as Int; the tolerance
`(elapsed_seconds as f64 * 0.1) as i64 + 5` is modelled as
`elapsed_seconds / 10 + 5`, which the truncating f64 computation equals
for every elapsed time below 2^53 seconds. -/
def SessionInfo.is_consistent_with (self previous : SessionInfo) (elapsed_seconds : Nat) : Bool :=
  if self.boot_time ≠ previous.boot_time then false
  else if self.agent_start_time ≠ previous.agent_start_time then true
  else
    let expected_uptime := previous.uptime_seconds + elapsed_seconds
    let uptime_diff := ((self.uptime_seconds : Int) - (expected_uptime : Int)).natAbs
    let tolerance := elapsed_seconds / 10 + 5
    decide (uptime_diff ≤ tolerance)

/-- C6: `is_consistent_with` returns inconsistent whenever boot times
differ; consistent whenever boot times agree but process-start times
differ (agent restart); and when both agree, consistent exactly when the
observed uptime differs from previous uptime + elapsed by at most the
tolerance of 10% of elapsed plus a minimum 5 seconds of slack. -/
theorem session_is_consistent_with_spec (s p : SessionInfo) (e : Nat) :
    (s.boot_time ≠ p.boot_time → s.is_consistent_with p e = false)
    ∧ (s.boot_time = p.boot_time → s.agent_start_time ≠ p.agent_start_time →
        s.is_consistent_with p e = true)
    ∧ (s.boot_time = p.boot_time → s.agent_start_time = p.agent_start_time →
        (s.is_consistent_with p e = true ↔
          ((s.uptime_seconds : Int) - ((p.uptime_seconds + e : Nat) : Int)).natAbs
            ≤ e / 10 + 5)) := by
  refine ⟨?_, ?_, ?_⟩
  · intro hb
    simp [SessionInfo.is_consistent_with, hb]
  · intro hb ha
    simp [SessionInfo.is_consistent_with, hb, ha]
  · intro hb ha
    simp [SessionInfo.is_consistent_with, hb, ha]

/-- Concrete sessions from the repository's own test
(`test_session_consistency` in src/metadata.rs). -/
def sessionOne : SessionInfo :=
  { boot_time := 1700000000, agent_start_time := 1700001000, uptime_seconds := 1000 }

/-- Same boot and start as `sessionOne`, uptime advanced by 60. -/
def sessionTwo : SessionInfo :=
  { boot_time := 1700000000, agent_start_time := 1700001000, uptime_seconds := 1060 }

/-- A session after a reboot: different boot time. -/
def sessionThree : SessionInfo :=
  { boot_time := 1700002000, agent_start_time := 1700003000, uptime_seconds := 100 }

/-- Same boot as `sessionOne` but a restarted agent process. -/
def sessionFour : SessionInfo :=
  { boot_time := 1700000000, agent_start_time := 1700002000, uptime_seconds := 2000 }

/-- Witness for C6 on the repository's own test vectors: uptime within
tolerance is consistent, a boot-time change is inconsistent, and an
agent restart with the same boot time is consistent. -/
theorem session_is_consistent_with_spec_witness :
    sessionTwo.is_consistent_with sessionOne 60 = true
    ∧ sessionThree.is_consistent_with sessionOne 60 = false
    ∧ sessionFour.is_consistent_with sessionOne 1000 = true :=
  ⟨((session_is_consistent_with_spec sessionTwo sessionOne 60).2.2 rfl rfl).mpr (by decide),
   (session_is_consistent_with_spec sessionThree sessionOne 60).1 (by decide),
   (session_is_consistent_with_spec sessionFour sessionOne 1000).2.1 rfl (by decide)⟩

/-- A JSON value, as far as the resource-state file needs one
(src/state.rs serializes with serde_json; pretty-printing and
re-parsing of the character stream are serde's and are modelled at the
level of JSON values). -/
inductive Json where
  | null
  | str (s : String)
  | num (n : Nat)
  | obj (fields : List (String × Json))
deriving Repr

/-- Embeds `CloudProvider` (src/metadata.rs). -/
inductive CloudProvider where
  | AWS
  | Azure
  | GCP
  | DigitalOcean
  | Unknown
deriving Repr, DecidableEq

/-- Embeds `InstanceMetadata` (src/metadata.rs). -/
structure InstanceMetadata where
  instance_id : Option String
  cloud_provider : Option CloudProvider
  region : Option String
  instance_type : Option String
deriving Repr, DecidableEq

/-- Embeds `ResourceState` (src/state.rs). -/
structure ResourceState where
  resource_id : String
  registered_at : String
  agent_version : String
  instance_metadata : InstanceMetadata
  session : SessionInfo
deriving Repr, DecidableEq

/-- serde serialization of the externally tagged unit variants of
`CloudProvider`: each variant becomes its name as a JSON string. -/
def CloudProvider.toJson : CloudProvider → Json
  | .AWS => .str "AWS"
  | .Azure => .str "Azure"
  | .GCP => .str "GCP"
  | .DigitalOcean => .str "DigitalOcean"
  | .Unknown => .str "Unknown"

/-- serde deserialization of `CloudProvider`. -/
def CloudProvider.fromJson : Json → Option CloudProvider
  | .str "AWS" => some .AWS
  | .str "Azure" => some .Azure
  | .str "GCP" => some .GCP
  | .str "DigitalOcean" => some .DigitalOcean
  | .str "Unknown" => some .Unknown
  | _ => none

/-- serde serialization of an `Option` field: `None` is `null`. -/
def optionToJson {α : Type} (f : α → Json) : Option α → Json
  | none => .null
  | some x => f x

/-- serde deserialization of an `Option<String>` field. -/
def optStrFromJson : Json → Option (Option String)
  | .null => some none
  | .str s => some (some s)
  | _ => none

/-- serde deserialization of the `Option<CloudProvider>` field. -/
def optProviderFromJson : Json → Option (Option CloudProvider)
  | .null => some none
  | j => (CloudProvider.fromJson j).map some

/-- Field access on a serialized JSON object. -/
def Json.getField : Json → String → Option Json
  | .obj fields, name => fields.lookup name
  | _, _ => none

/-- Expect a JSON string. -/
def Json.asStr : Json → Option String
  | .str s => some s
  | _ => none

/-- Expect a JSON number. -/
def Json.asNat : Json → Option Nat
  | .num n => some n
  | _ => none

/-- serde serialization of `SessionInfo` (src/metadata.rs). -/
def SessionInfo.toJson (s : SessionInfo) : Json :=
  .obj [("boot_time", .num s.boot_time),
        ("agent_start_time", .num s.agent_start_time),
        ("uptime_seconds", .num s.uptime_seconds)]

/-- serde deserialization of `SessionInfo`. -/
def SessionInfo.fromJson (j : Json) : Option SessionInfo := do
  let boot_time ← (← j.getField "boot_time").asNat
  let agent_start_time ← (← j.getField "agent_start_time").asNat
  let uptime_seconds ← (← j.getField "uptime_seconds").asNat
  pure { boot_time := boot_time, agent_start_time := agent_start_time,
         uptime_seconds := uptime_seconds }

/-- serde serialization of `InstanceMetadata` (src/metadata.rs). -/
def InstanceMetadata.toJson (m : InstanceMetadata) : Json :=
  .obj [("instance_id", optionToJson Json.str m.instance_id),
        ("cloud_provider", optionToJson CloudProvider.toJson m.cloud_provider),
        ("region", optionToJson Json.str m.region),
        ("instance_type", optionToJson Json.str m.instance_type)]

/-- serde deserialization of `InstanceMetadata`. -/
def InstanceMetadata.fromJson (j : Json) : Option InstanceMetadata := do
  let instance_id ← optStrFromJson (← j.getField "instance_id")
  let cloud_provider ← optProviderFromJson (← j.getField "cloud_provider")
  let region ← optStrFromJson (← j.getField "region")
  let instance_type ← optStrFromJson (← j.getField "instance_type")
  pure { instance_id := instance_id, cloud_provider := cloud_provider,
         region := region, instance_type := instance_type }

/-- serde serialization of `ResourceState` (src/state.rs), the JSON
value behind `serde_json::to_string_pretty`. -/
def ResourceState.toJson (st : ResourceState) : Json :=
  .obj [("resource_id", .str st.resource_id),
        ("registered_at", .str st.registered_at),
        ("agent_version", .str st.agent_version),
        ("instance_metadata", st.instance_metadata.toJson),
        ("session", st.session.toJson)]

/-- serde deserialization of `ResourceState` (src/state.rs), the JSON
value behind `serde_json::from_str`. -/
def ResourceState.fromJson (j : Json) : Option ResourceState := do
  let resource_id ← (← j.getField "resource_id").asStr
  let registered_at ← (← j.getField "registered_at").asStr
  let agent_version ← (← j.getField "agent_version").asStr
  let instance_metadata ← InstanceMetadata.fromJson (← j.getField "instance_metadata")
  let session ← SessionInfo.fromJson (← j.getField "session")
  pure { resource_id := resource_id, registered_at := registered_at,
         agent_version := agent_version, instance_metadata := instance_metadata,
         session := session }

theorem resourceState_fromJson_toJson (st : ResourceState) :
    ResourceState.fromJson st.toJson = some st := by
  rcases st with ⟨rid, rat, ver, ⟨iid, cp, reg, ity⟩, sess⟩
  rcases cp with _ | c
  · rcases iid with _ | iid <;> rcases reg with _ | reg <;> rcases ity with _ | ity <;> rfl
  · cases c <;> rcases iid with _ | iid <;> rcases reg with _ | reg <;>
      rcases ity with _ | ity <;> rfl

/-- Embeds `StateError` (src/state.rs). -/
inductive StateError where
  | ReadError (path : String) (error : String)
  | ParseError (path : String) (error : String)
  | WriteError (path : String) (error : String)
  | CreateDirectoryError (path : String) (error : String)
  | PermissionError (path : String) (error : String)
  | SerializeError (msg : String)
deriving Repr, DecidableEq

/-- What the filesystem holds at one candidate path: no file, a file
whose read fails with the given error text, or a file that reads as the
given JSON value (a value that fails `ResourceState.fromJson` models a
file that parses as JSON but not as a `ResourceState`). -/
inductive FileContent where
  | absent
  | unreadable (msg : String)
  | readable (j : Json)

/-- The filesystem, seen as the contents at each path. -/
def FS := String → FileContent

/-- Embeds the candidate path list that both `ResourceState::load` and
`ResourceState::save` build (src/state.rs): the service state directory,
the legacy system directory, then the per-user config directory
(`dirs::config_dir()` is the `config_dir` parameter). -/
def paths_to_try (config_dir : String) : List String :=
  ["/var/lib/operion/resource-state.json",
   "/etc/operion/resource-state.json",
   config_dir ++ "/operion/resource-state.json"]

/-- The serde error text attached to a failed parse is outside the
model; `load` reports it as this fixed placeholder. -/
def parseErrorText : String := "invalid resource state"

/-- The loop of `ResourceState::load` (src/state.rs): skip paths with no
file, surface a read error or a parse error of an existing file, return
the first successfully parsed state. -/
def load_from (fs : FS) : List String → Except StateError (Option ResourceState)
  | [] => .ok none
  | path :: rest =>
    match fs path with
    | .absent => load_from fs rest
    | .unreadable msg => .error (.ReadError path msg)
    | .readable j =>
      match ResourceState.fromJson j with
      | none => .error (.ParseError path parseErrorText)
      | some st => .ok (some st)

/-- Embeds `ResourceState::load` (src/state.rs). -/
def ResourceState.load (fs : FS) (config_dir : String) :
    Except StateError (Option ResourceState) :=
  load_from fs (paths_to_try config_dir)

/-- The filesystem after a successful write of `j` at `path`. -/
def update_file (fs : FS) (path : String) (j : Json) : FS :=
  fun p => if p = path then .readable j else fs p

/-- Embeds `ResourceState::try_save_to_path` (src/state.rs).  `attempt`
is the filesystem oracle deciding whether the create-directory /
temp-file write / sync / atomic rename / permission sequence at a path
succeeds (`none`) or fails with which `StateError`; on success the path
holds the serialized JSON. -/
def try_save_to_path (attempt : String → Option StateError) (fs : FS) (path : String)
    (j : Json) : Except StateError FS :=
  match attempt path with
  | none => .ok (update_file fs path j)
  | some e => .error e

/-- The loop of `ResourceState::save` (src/state.rs): try each candidate
path in order, return the first success, and after the last failure
return the last error encountered. -/
def save_go (attempt : String → Option StateError) (j : Json) (fs : FS) :
    List String → Option StateError → Except StateError FS
  | [], last => .error (last.getD (.WriteError "unknown" "No writable location found"))
  | path :: rest, _last =>
    match try_save_to_path attempt fs path j with
    | .ok fs2 => .ok fs2
    | .error e => save_go attempt j fs rest (some e)

/-- Embeds `ResourceState::save` (src/state.rs). -/
def ResourceState.save (attempt : String → Option StateError) (fs : FS)
    (config_dir : String) (st : ResourceState) : Except StateError FS :=
  save_go attempt st.toJson fs (paths_to_try config_dir) none

theorem save_go_first_ok (attempt : String → Option StateError) (j : Json) (fs : FS) :
    ∀ (pre : List String) (path : String) (post : List String) (last : Option StateError),
      (∀ q ∈ pre, attempt q ≠ none) → attempt path = none →
      save_go attempt j fs (pre ++ path :: post) last = .ok (update_file fs path j) := by
  intro pre
  induction pre with
  | nil =>
    intro path post last _ hpath
    simp [save_go, try_save_to_path, hpath]
  | cons q pre ih =>
    intro path post last hpre hpath
    rcases hqe : attempt q with _ | e
    · exact absurd hqe (hpre q (by simp))
    · simp only [List.cons_append, save_go, try_save_to_path, hqe]
      exact ih path post (some e) (fun r hr => hpre r (by simp [hr])) hpath

theorem save_go_all_fail (attempt : String → Option StateError) (j : Json) (fs : FS) :
    ∀ (paths : List String) (last : Option StateError) (lastPath : String) (e : StateError),
      (∀ q ∈ paths, attempt q ≠ none) →
      paths.getLast? = some lastPath → attempt lastPath = some e →
      save_go attempt j fs paths last = .error e := by
  intro paths
  induction paths with
  | nil =>
    intro last lastPath e _ hlast _
    simp at hlast
  | cons q rest ih =>
    intro last lastPath e hall hlast he
    rcases hqe : attempt q with _ | e1
    · exact absurd hqe (hall q (by simp))
    · simp only [save_go, try_save_to_path, hqe]
      rcases rest with _ | ⟨r, rest⟩
      · have hq : q = lastPath := by simpa using hlast
        subst hq
        have : e1 = e := by rw [hqe] at he; exact Option.some.inj he
        subst this
        simp [save_go]
      · have hlast2 : (r :: rest).getLast? = some lastPath := by
          rw [← hlast]
          exact List.getLast?_cons_cons.symm
        exact ih (some e1) lastPath e (fun p hp => hall p (by simp [hp])) hlast2 he

/-- C3: `save` attempts the candidate paths in their fixed priority
order, succeeds (writing the serialized state at the first succeeding
path) as soon as any candidate's atomic write succeeds — whatever the
later candidates would do — and fails only when every candidate fails,
in which case the returned error is the error of the last candidate. -/
theorem resource_state_save_spec (attempt : String → Option StateError) (fs : FS)
    (config_dir : String) (st : ResourceState) :
    (∀ (pre : List String) (path : String) (post : List String),
        paths_to_try config_dir = pre ++ path :: post →
        (∀ q ∈ pre, attempt q ≠ none) → attempt path = none →
        ResourceState.save attempt fs config_dir st = .ok (update_file fs path st.toJson))
    ∧ (∀ (lastPath : String) (e : StateError),
        (∀ q ∈ paths_to_try config_dir, attempt q ≠ none) →
        (paths_to_try config_dir).getLast? = some lastPath → attempt lastPath = some e →
        ResourceState.save attempt fs config_dir st = .error e) := by
  constructor
  · intro pre path post hsplit hpre hpath
    rw [ResourceState.save, hsplit]
    exact save_go_first_ok attempt st.toJson fs pre path post none hpre hpath
  · intro lastPath e hall hlast he
    exact save_go_all_fail attempt st.toJson fs (paths_to_try config_dir) none lastPath e
      hall hlast he

/-- A concrete resource state with all-None instance metadata (values
from the repository's own tests). -/
def sampleState : ResourceState :=
  { resource_id := "res_123456", registered_at := "2024-01-15T10:30:00Z",
    agent_version := "0.2.1",
    instance_metadata :=
      { instance_id := none, cloud_provider := none, region := none, instance_type := none },
    session := sessionOne }

/-- Witness for C3 at concrete inputs: with every path writable, save
succeeds writing the first candidate; with every path failing, save
returns the error of the last candidate. -/
theorem resource_state_save_spec_witness :
    ResourceState.save (fun _ => none) (fun _ => .absent) "/home/user/.config" sampleState
      = .ok (update_file (fun _ => .absent) "/var/lib/operion/resource-state.json"
              sampleState.toJson)
    ∧ ResourceState.save (fun p => some (.WriteError p "Permission denied"))
        (fun _ => .absent) "/home/user/.config" sampleState
      = .error (.WriteError "/home/user/.config/operion/resource-state.json"
                  "Permission denied") :=
  ⟨(resource_state_save_spec (fun _ => none) (fun _ => .absent) "/home/user/.config"
      sampleState).1 [] "/var/lib/operion/resource-state.json"
      ["/etc/operion/resource-state.json", "/home/user/.config/operion/resource-state.json"]
      rfl (by simp) rfl,
   (resource_state_save_spec (fun p => some (.WriteError p "Permission denied"))
      (fun _ => .absent) "/home/user/.config" sampleState).2
      "/home/user/.config/operion/resource-state.json"
      (.WriteError "/home/user/.config/operion/resource-state.json" "Permission denied")
      (by decide) rfl rfl⟩

theorem load_from_append_absent (fs : FS) :
    ∀ (l1 l2 : List String), (∀ q ∈ l1, fs q = .absent) →
      load_from fs (l1 ++ l2) = load_from fs l2 := by
  intro l1
  induction l1 with
  | nil => intro l2 _; rfl
  | cons q l1 ih =>
    intro l2 h
    have hq : fs q = FileContent.absent := h q (by simp)
    simp only [List.cons_append, load_from, hq]
    exact ih l2 (fun r hr => h r (by simp [hr]))

theorem load_from_all_absent (fs : FS) :
    ∀ l : List String, (∀ q ∈ l, fs q = .absent) → load_from fs l = .ok none := by
  intro l
  induction l with
  | nil => intro _; rfl
  | cons q l ih =>
    intro h
    have hq : fs q = FileContent.absent := h q (by simp)
    simp only [load_from, hq]
    exact ih (fun r hr => h r (by simp [hr]))

/-- C7: `load` walks the fixed candidate list in order; a path with no
file is skipped without error; a path whose file fails to read or to
parse makes `load` return that error immediately rather than continuing;
a path whose file parses yields `Some` of that state; and when no
candidate has a file at all the result is `Ok(None)`. -/
theorem resource_state_load_spec (fs : FS) (config_dir : String) :
    (∀ path rest, fs path = .absent → load_from fs (path :: rest) = load_from fs rest)
    ∧ (∀ path rest msg, fs path = .unreadable msg →
        load_from fs (path :: rest) = .error (.ReadError path msg))
    ∧ (∀ path rest j, fs path = .readable j → ResourceState.fromJson j = none →
        load_from fs (path :: rest) = .error (.ParseError path parseErrorText))
    ∧ (∀ path rest j st, fs path = .readable j → ResourceState.fromJson j = some st →
        load_from fs (path :: rest) = .ok (some st))
    ∧ ((∀ p ∈ paths_to_try config_dir, fs p = .absent) →
        ResourceState.load fs config_dir = .ok none)
    ∧ ResourceState.load fs config_dir = load_from fs (paths_to_try config_dir) := by
  refine ⟨?_, ?_, ?_, ?_, ?_, rfl⟩
  · intro path rest h
    simp [load_from, h]
  · intro path rest msg h
    simp [load_from, h]
  · intro path rest j h hj
    simp [load_from, h, hj]
  · intro path rest j st h hj
    simp [load_from, h, hj]
  · intro h
    exact load_from_all_absent fs (paths_to_try config_dir) h

/-- A filesystem with a valid state file at the legacy path only. -/
def fsLegacyOnly : FS :=
  fun p => if p = "/etc/operion/resource-state.json" then .readable sampleState.toJson
           else .absent

/-- A filesystem with an unreadable file at the legacy path. -/
def fsLegacyUnreadable : FS :=
  fun p => if p = "/etc/operion/resource-state.json" then .unreadable "Permission denied"
           else .absent

/-- A filesystem with an unparseable file at the legacy path. -/
def fsLegacyUnparseable : FS :=
  fun p => if p = "/etc/operion/resource-state.json" then .readable .null
           else .absent

/-- Witness for C7 at concrete inputs: skipping an absent path, read
and parse errors surfacing, a parsed file returned, and the all-absent
filesystem yielding `Ok(None)`. -/
theorem resource_state_load_spec_witness :
    load_from fsLegacyOnly
        ["/var/lib/operion/resource-state.json", "/etc/operion/resource-state.json"]
      = load_from fsLegacyOnly ["/etc/operion/resource-state.json"]
    ∧ load_from fsLegacyUnreadable ["/etc/operion/resource-state.json"]
      = .error (.ReadError "/etc/operion/resource-state.json" "Permission denied")
    ∧ load_from fsLegacyUnparseable ["/etc/operion/resource-state.json"]
      = .error (.ParseError "/etc/operion/resource-state.json" parseErrorText)
    ∧ load_from fsLegacyOnly ["/etc/operion/resource-state.json"]
      = .ok (some sampleState)
    ∧ ResourceState.load (fun _ => .absent) "/home/user/.config" = .ok none :=
  ⟨(resource_state_load_spec fsLegacyOnly "/home/user/.config").1
      "/var/lib/operion/resource-state.json" ["/etc/operion/resource-state.json"] rfl,
   (resource_state_load_spec fsLegacyUnreadable "/home/user/.config").2.1
      "/etc/operion/resource-state.json" [] "Permission denied" rfl,
   (resource_state_load_spec fsLegacyUnparseable "/home/user/.config").2.2.1
      "/etc/operion/resource-state.json" [] .null rfl rfl,
   (resource_state_load_spec fsLegacyOnly "/home/user/.config").2.2.2.1
      "/etc/operion/resource-state.json" [] sampleState.toJson sampleState rfl
      (resourceState_fromJson_toJson sampleState),
   (resource_state_load_spec (fun _ => .absent) "/home/user/.config").2.2.2.2.1
      (fun _ _ => rfl)⟩

/-- C4: for every `ResourceState` (all field combinations), a successful
`save` followed by `load` round-trips: serialize-then-parse is the
identity on `ResourceState`, `save` writes the serialized state at the
first candidate path whose write succeeds (the earlier, failing
candidates — e.g. an unwritable primary path — holding no file), and
`load` on the resulting filesystem returns `Some` of a state identical
field-for-field to the saved one. -/
theorem resource_state_save_load_round_trip (attempt : String → Option StateError) (fs : FS)
    (config_dir : String) (st : ResourceState) (pre : List String) (path : String)
    (post : List String)
    (hsplit : paths_to_try config_dir = pre ++ path :: post)
    (hpre_fail : ∀ q ∈ pre, attempt q ≠ none)
    (hpre_absent : ∀ q ∈ pre, fs q = .absent)
    (hpath : attempt path = none) :
    ResourceState.fromJson st.toJson = some st
    ∧ ResourceState.save attempt fs config_dir st = .ok (update_file fs path st.toJson)
    ∧ ResourceState.load (update_file fs path st.toJson) config_dir = .ok (some st) := by
  refine ⟨resourceState_fromJson_toJson st, ?_, ?_⟩
  · rw [ResourceState.save, hsplit]
    exact save_go_first_ok attempt st.toJson fs pre path post none hpre_fail hpath
  · rw [ResourceState.load, hsplit]
    have habs : ∀ q ∈ pre, update_file fs path st.toJson q = .absent := by
      intro q hq
      have hne : q ≠ path := by
        intro hqp
        exact (hpre_fail q hq) (hqp ▸ hpath)
      simpa [update_file, hne] using hpre_absent q hq
    rw [load_from_append_absent (update_file fs path st.toJson) pre (path :: post) habs]
    simp [load_from, update_file, resourceState_fromJson_toJson]

/-- A write oracle under which the primary candidate path is unwritable
and every other path accepts the write. -/
def attemptPrimaryUnwritable : String → Option StateError :=
  fun p => if p = "/var/lib/operion/resource-state.json"
           then some (.WriteError "/var/lib/operion/resource-state.json"
                        "Read-only file system")
           else none

/-- Witness for C4 at a concrete input: primary path unwritable, write
lands at the legacy fallback path, and load returns the saved state
(all-None instance metadata). -/
theorem resource_state_save_load_round_trip_witness :
    ResourceState.fromJson sampleState.toJson = some sampleState
    ∧ ResourceState.save attemptPrimaryUnwritable (fun _ => .absent) "/home/user/.config"
        sampleState
      = .ok (update_file (fun _ => .absent) "/etc/operion/resource-state.json"
              sampleState.toJson)
    ∧ ResourceState.load
        (update_file (fun _ => .absent) "/etc/operion/resource-state.json" sampleState.toJson)
        "/home/user/.config"
      = .ok (some sampleState) :=
  resource_state_save_load_round_trip attemptPrimaryUnwritable (fun _ => .absent)
    "/home/user/.config" sampleState ["/var/lib/operion/resource-state.json"]
    "/etc/operion/resource-state.json" ["/home/user/.config/operion/resource-state.json"]
    rfl (by decide) (fun _ _ => rfl) rfl

/-- Embeds `TokenResponse` (src/oauth.rs). -/
structure TokenResponse where
  access_token : String
  token_type : String
  expires_in : Nat
  scope : Option String
deriving Repr, DecidableEq

/-- Embeds `StoredToken` (src/oauth.rs): the on-disk cached credential
with its absolute expiry. -/
structure StoredToken where
  access_token : String
  token_type : String
  expires_at : Nat
  scope : Option String
deriving Repr, DecidableEq

/-- Embeds `OAuthError` (src/oauth.rs). -/
inductive OAuthError where
  | Configuration (msg : String)
  | Http (msg : String)
  | TokenRequest (status : Nat) (body : String)
  | Parse (msg : String)
  | Storage (msg : String)
deriving Repr, DecidableEq

/-- The token cache file as `load_cached_token` can see it: missing (or
unreadable), present but unparseable, or holding a stored token. -/
inductive TokenCache where
  | missing
  | unparseable (msg : String)
  | stored (t : StoredToken)
deriving Repr, DecidableEq

/-- Embeds `OAuthManager::load_cached_token` (src/oauth.rs): a read
failure is a Storage error, a parse failure a Parse error. -/
def load_cached_token : TokenCache → Except OAuthError StoredToken
  | .missing => .error (.Storage "No cached token found")
  | .unparseable msg => .error (.Parse msg)
  | .stored t => .ok t

/-- Embeds `OAuthManager::is_token_expired` (src/oauth.rs): the token is
expired when `now >= expires_at`. -/
def is_token_expired (now : Nat) (token : StoredToken) : Bool :=
  decide (token.expires_at ≤ now)

/-- Embeds the token built by `OAuthManager::cache_token` (src/oauth.rs):
absolute expiry is request time plus the declared lifetime minus the
fixed 60-second safety buffer (u64 arithmetic, modelled as truncated Nat
subtraction). -/
def cache_token (now : Nat) (r : TokenResponse) : StoredToken :=
  { access_token := r.access_token, token_type := r.token_type,
    expires_at := now + r.expires_in - 60, scope := r.scope }

/-- Result of one `get_access_token` call: the returned value, the cache
file afterwards, and how many token-endpoint requests were made. -/
structure TokenFetch where
  result : Except OAuthError String
  cache : TokenCache
  requests : Nat
deriving Repr

/-- The refresh path of `OAuthManager::get_access_token` (src/oauth.rs):
`request_new_token` (outcome given by the `request` oracle, one
token-endpoint request either way) followed by `cache_token` (whose
filesystem failure, if any, is the `cacheWrite` oracle and propagates). -/
def request_and_cache (cache : TokenCache) (now : Nat)
    (request : Except OAuthError TokenResponse) (cacheWrite : Option OAuthError) :
    TokenFetch :=
  match request with
  | .error e => { result := .error e, cache := cache, requests := 1 }
  | .ok resp =>
    match cacheWrite with
    | some e => { result := .error e, cache := cache, requests := 1 }
    | none => { result := .ok resp.access_token,
                cache := .stored (cache_token now resp), requests := 1 }

/-- Embeds `OAuthManager::get_access_token` (src/oauth.rs): return the
cached token with no request when the cache loads and is not expired;
otherwise request a new token, cache it, and return it. -/
def get_access_token (cache : TokenCache) (now : Nat)
    (request : Except OAuthError TokenResponse) (cacheWrite : Option OAuthError) :
    TokenFetch :=
  match load_cached_token cache with
  | .ok token =>
    if ! is_token_expired now token then
      { result := .ok token.access_token, cache := cache, requests := 0 }
    else request_and_cache cache now request cacheWrite
  | .error _ => request_and_cache cache now request cacheWrite

/-- The cached credential is present, parseable and not yet expired at
time `n` (`expiry ≤ now` invalidates it). -/
def cache_valid_at (c : TokenCache) (n : Nat) : Prop :=
  ∃ t, c = .stored t ∧ n < t.expires_at

theorem get_access_token_hit (c : TokenCache) (now : Nat)
    (req : Except OAuthError TokenResponse) (w : Option OAuthError)
    (h : cache_valid_at c now) :
    ∃ t, c = .stored t
      ∧ get_access_token c now req w
          = { result := .ok t.access_token, cache := c, requests := 0 } := by
  obtain ⟨t, hc, hlt⟩ := h
  subst hc
  refine ⟨t, rfl, ?_⟩
  simp [get_access_token, load_cached_token, is_token_expired, Nat.not_le_of_lt hlt]

theorem request_and_cache_requests (c : TokenCache) (now : Nat)
    (req : Except OAuthError TokenResponse) (w : Option OAuthError) :
    (request_and_cache c now req w).requests = 1 := by
  rcases req with e | resp
  · rfl
  · rcases w with _ | e <;> rfl

theorem get_access_token_requests_zero_iff (c : TokenCache) (now : Nat)
    (req : Except OAuthError TokenResponse) (w : Option OAuthError) :
    (get_access_token c now req w).requests = 0 ↔ cache_valid_at c now := by
  rcases c with _ | msg | t
  · simp [get_access_token, load_cached_token, request_and_cache_requests, cache_valid_at]
  · simp [get_access_token, load_cached_token, request_and_cache_requests, cache_valid_at]
  · by_cases hexp : t.expires_at ≤ now
    · have : is_token_expired now t = true := by simp [is_token_expired, hexp]
      simp [get_access_token, load_cached_token, this, request_and_cache_requests,
        cache_valid_at]
      omega
    · have : is_token_expired now t = false := by simp [is_token_expired, hexp]
      simp [get_access_token, load_cached_token, this, cache_valid_at]
      omega

theorem request_and_cache_ok_stored (c : TokenCache) (now : Nat)
    (req : Except OAuthError TokenResponse) (w : Option OAuthError) (tok : String)
    (t' : StoredToken)
    (hres : (request_and_cache c now req w).result = .ok tok)
    (hc : (request_and_cache c now req w).cache = .stored t') :
    t'.access_token = tok := by
  rcases req with e | resp
  · simp [request_and_cache] at hres
  · rcases w with _ | e
    · simp [request_and_cache] at hres hc
      rw [← hc]
      simp [cache_token, hres]
    · simp [request_and_cache] at hres

theorem get_access_token_ok_stored (c : TokenCache) (now : Nat)
    (req : Except OAuthError TokenResponse) (w : Option OAuthError) (tok : String)
    (t' : StoredToken)
    (hres : (get_access_token c now req w).result = .ok tok)
    (hc : (get_access_token c now req w).cache = .stored t') :
    t'.access_token = tok := by
  rcases c with _ | msg | t
  · exact request_and_cache_ok_stored _ now req w tok t' hres hc
  · exact request_and_cache_ok_stored _ now req w tok t' hres hc
  · by_cases hexp : is_token_expired now t = true
    · have hunfold : get_access_token (.stored t) now req w
          = request_and_cache (.stored t) now req w := by
        simp [get_access_token, load_cached_token, hexp]
      rw [hunfold] at hres hc
      exact request_and_cache_ok_stored _ now req w tok t' hres hc
    · have hexp2 : is_token_expired now t = false := by
        revert hexp
        cases is_token_expired now t <;> simp
      simp [get_access_token, load_cached_token, hexp2] at hres hc
      rw [← hc, hres]

theorem get_access_token_requests_le_one (c : TokenCache) (now : Nat)
    (req : Except OAuthError TokenResponse) (w : Option OAuthError) :
    (get_access_token c now req w).requests ≤ 1 := by
  rcases c with _ | msg | t
  · simp [get_access_token, load_cached_token, request_and_cache_requests]
  · simp [get_access_token, load_cached_token, request_and_cache_requests]
  · by_cases hexp : is_token_expired now t = true
    · simp [get_access_token, load_cached_token, hexp, request_and_cache_requests]
    · have hexp2 : is_token_expired now t = false := by
        revert hexp
        cases is_token_expired now t <;> simp
      simp [get_access_token, load_cached_token, hexp2]

/-- C5: `get_access_token` returns with zero token-endpoint requests
exactly when the cache file is present, parseable and not expired
(current time strictly before the stored expiry; `expiry ≤ now`
invalidates it), in which case it returns the cached token string and
leaves the cache unchanged; consequently, whenever a call returns a
token and the cache it leaves is still within its validity window at a
second call's time, the second call returns the same token string with
no request, and the two calls make at most one request in total. -/
theorem oauth_get_access_token_spec (c : TokenCache) (now : Nat)
    (req : Except OAuthError TokenResponse) (w : Option OAuthError) :
    ((get_access_token c now req w).requests = 0 ↔ cache_valid_at c now)
    ∧ (cache_valid_at c now → ∃ t, load_cached_token c = .ok t
        ∧ get_access_token c now req w
            = { result := .ok t.access_token, cache := c, requests := 0 })
    ∧ (∀ (now2 : Nat) (req2 : Except OAuthError TokenResponse) (w2 : Option OAuthError)
         (tok : String),
        (get_access_token c now req w).result = .ok tok →
        cache_valid_at (get_access_token c now req w).cache now2 →
        (get_access_token (get_access_token c now req w).cache now2 req2 w2).result
            = .ok tok
        ∧ (get_access_token (get_access_token c now req w).cache now2 req2 w2).requests = 0
        ∧ (get_access_token c now req w).requests
            + (get_access_token (get_access_token c now req w).cache now2 req2 w2).requests
            ≤ 1) := by
  refine ⟨get_access_token_requests_zero_iff c now req w, ?_, ?_⟩
  · intro h
    obtain ⟨t, hc, heq⟩ := get_access_token_hit c now req w h
    exact ⟨t, by rw [hc]; rfl, heq⟩
  · intro now2 req2 w2 tok hres hvalid
    obtain ⟨t', hc', heq'⟩ := get_access_token_hit _ now2 req2 w2 hvalid
    have htok : t'.access_token = tok :=
      get_access_token_ok_stored c now req w tok t' hres hc'
    have h1 := get_access_token_requests_le_one c now req w
    refine ⟨?_, ?_, ?_⟩
    · rw [heq']
      simp [htok]
    · rw [heq']
    · rw [heq']
      simpa using h1

/-- The token response of the repository's own oauth test. -/
def tokenRespSample : TokenResponse :=
  { access_token := "test-access-token", token_type := "Bearer", expires_in := 3600,
    scope := some "server:register server:metrics" }

/-- Witness for C5 at a concrete input: a first call with an empty cache
requests and caches the token (expiry 1000 + 3600 - 60 = 4540); a second
call at time 2000 — inside the validity window — returns the same token
with no request, one request in total. -/
theorem oauth_get_access_token_spec_witness :
    (get_access_token .missing 1000 (.ok tokenRespSample) none).result
        = .ok "test-access-token"
    ∧ (get_access_token (get_access_token .missing 1000 (.ok tokenRespSample) none).cache
         2000 (.ok tokenRespSample) none).result = .ok "test-access-token"
    ∧ (get_access_token .missing 1000 (.ok tokenRespSample) none).requests
        + (get_access_token (get_access_token .missing 1000 (.ok tokenRespSample) none).cache
             2000 (.ok tokenRespSample) none).requests ≤ 1 :=
  have h := (oauth_get_access_token_spec .missing 1000 (.ok tokenRespSample) none).2.2 2000
    (.ok tokenRespSample) none "test-access-token" rfl
    ⟨cache_token 1000 tokenRespSample, rfl, by decide⟩
  ⟨rfl, h.1, h.2.2⟩
